import Mathlib

/-!
Verification development for the pitaralab formulation engine.

The TypeScript sources are shallowly embedded: JS numbers become `ℚ`,
optional fields become `Option ℚ`, JS `x || d` on numbers (which treats `0`
as falsy) becomes `jsOr`, and `x ?? d` becomes `Option.getD`.  Object maps
keyed by strings become association lists `List (String × ℚ)` in insertion
order.  JS number-to-string formatting inside diagnostic messages is
rendered by a simple exact decimal formatter over `ℚ`.
-/

/-- JS `x || d` for an optional numeric field: `undefined` and `0` both fall
back to the default `d`. -/
def jsOr (o : Option ℚ) (d : ℚ) : ℚ :=
  match o with
  | none => d
  | some x => if x = 0 then d else x

/-- Ingredient category, from `src/lib/ingredientLibrary.ts`. -/
inductive Category
  | dairy
  | sugar
  | stabilizer
  | fruit
  | flavor
  | fat
  | other
deriving DecidableEq

/-- Embeds `sugar_split` record: glucose/fructose/sucrose percentages of the sugar
mass of a fruit ingredient. -/
structure SugarSplit where
  glucose : Option ℚ := none
  fructose : Option ℚ := none
  sucrose : Option ℚ := none
deriving DecidableEq

/-- Embeds `IngredientData`, from `src/lib/ingredientLibrary.ts`. -/
structure IngredientData where
  id : String
  name : String
  category : Category
  water_pct : ℚ
  fat_pct : ℚ
  msnf_pct : Option ℚ := none
  other_solids_pct : Option ℚ := none
  sugars_pct : Option ℚ := none
  sp_coeff : Option ℚ := none
  pac_coeff : Option ℚ := none
  de : Option ℚ := none
  lactose_pct : Option ℚ := none
  cost_per_kg : Option ℚ := none
  sugar_split : Option SugarSplit := none
deriving DecidableEq

/-- The seed catalog entries of `DEFAULT_INGREDIENTS` from
`src/lib/ingredientLibrary.ts`, one named definition per array element. -/
def ingSucrose : IngredientData :=
  { id := "sucrose", name := "Sucrose", category := .sugar,
    water_pct := 0, fat_pct := 0, sugars_pct := some 100,
    sp_coeff := some 1.00, pac_coeff := some 100, cost_per_kg := some 45 }

/-- Catalog entry `dextrose`. -/
def ingDextrose : IngredientData :=
  { id := "dextrose", name := "Dextrose", category := .sugar,
    water_pct := 0, fat_pct := 0, sugars_pct := some 100,
    sp_coeff := some 0.74, pac_coeff := some 190, cost_per_kg := some 55 }

/-- Catalog entry `glucose_de60`. -/
def ingGlucoseDE60 : IngredientData :=
  { id := "glucose_de60", name := "Glucose Syrup DE60", category := .sugar,
    water_pct := 20, fat_pct := 0, sugars_pct := some 80, de := some 60,
    sp_coeff := some 0.50, pac_coeff := some 118,
    other_solids_pct := some 0, cost_per_kg := some 38 }

/-- Catalog entry `lactose`. -/
def ingLactose : IngredientData :=
  { id := "lactose", name := "Lactose", category := .sugar,
    water_pct := 0, fat_pct := 0, sugars_pct := some 100,
    sp_coeff := some 0.16, pac_coeff := some 62, cost_per_kg := some 85 }

/-- Catalog entry `milk_3`. -/
def ingMilk3 : IngredientData :=
  { id := "milk_3", name := "Milk 3% fat", category := .dairy,
    water_pct := 88.7, fat_pct := 3, msnf_pct := some 8.5,
    lactose_pct := some 4.8, cost_per_kg := some 25 }

/-- Catalog entry `cream_25`. -/
def ingCream25 : IngredientData :=
  { id := "cream_25", name := "Cream 25% fat", category := .dairy,
    water_pct := 68.2, fat_pct := 25, msnf_pct := some 6.8,
    lactose_pct := some 3.8, cost_per_kg := some 120 }

/-- Catalog entry `smp`. -/
def ingSmp : IngredientData :=
  { id := "smp", name := "Skim Milk Powder", category := .dairy,
    water_pct := 3.5, fat_pct := 1, msnf_pct := some 93,
    lactose_pct := some 51, cost_per_kg := some 180 }

/-- Catalog entry `stabilizer`. -/
def ingStabilizer : IngredientData :=
  { id := "stabilizer", name := "Stabilizer Blend", category := .stabilizer,
    water_pct := 0, fat_pct := 0, other_solids_pct := some 100,
    cost_per_kg := some 850 }

/-- Catalog entry `gulab_jamun_paste`. -/
def ingGulabJamunPaste : IngredientData :=
  { id := "gulab_jamun_paste", name := "Gulab Jamun Paste", category := .flavor,
    water_pct := 41.6, sugars_pct := some 42.52, fat_pct := 5.4,
    msnf_pct := some 8.1, other_solids_pct := some 3.38,
    sp_coeff := some 0.85, pac_coeff := some 125, cost_per_kg := some 320 }

/-- Catalog entry `gulab_jamun`. -/
def ingGulabJamun : IngredientData :=
  { id := "gulab_jamun", name := "Gulab Jamun (pieces)", category := .flavor,
    water_pct := 30, sugars_pct := some 51.9, fat_pct := 6,
    msnf_pct := some 8, other_solids_pct := some 4.1,
    sp_coeff := some 0.90, pac_coeff := some 135, cost_per_kg := some 280 }

/-- Catalog entry `rabri`. -/
def ingRabri : IngredientData :=
  { id := "rabri", name := "Rabri", category := .flavor,
    water_pct := 53.6, sugars_pct := some 14.36, fat_pct := 18,
    msnf_pct := some 9.56, other_solids_pct := some 7.84,
    sp_coeff := some 0.75, pac_coeff := some 95, cost_per_kg := some 450 }

/-- Catalog entry `jalebi`. -/
def ingJalebi : IngredientData :=
  { id := "jalebi", name := "Jalebi", category := .flavor,
    water_pct := 38.55, sugars_pct := some 34.55, fat_pct := 6.36,
    msnf_pct := some 2.36, other_solids_pct := some 18.18,
    sp_coeff := some 0.95, pac_coeff := some 145, cost_per_kg := some 350 }

/-- Catalog entry `cocoa_dp`. -/
def ingCocoaDp : IngredientData :=
  { id := "cocoa_dp", name := "Cocoa Powder (Dutch)", category := .flavor,
    water_pct := 0, sugars_pct := some 0.5, fat_pct := 23,
    other_solids_pct := some 62.4, sp_coeff := some 0.1,
    pac_coeff := some 15, cost_per_kg := some 680 }

/-- Catalog entry `heavy_cream`. -/
def ingHeavyCream : IngredientData :=
  { id := "heavy_cream", name := "Heavy Cream", category := .dairy,
    water_pct := 57.3, fat_pct := 38, msnf_pct := some 4.7,
    lactose_pct := some 2.8, cost_per_kg := some 180 }

/-- Catalog entry `whole_milk`. -/
def ingWholeMilk : IngredientData :=
  { id := "whole_milk", name := "Whole Milk", category := .dairy,
    water_pct := 87.4, fat_pct := 3.7, msnf_pct := some 8.9,
    lactose_pct := some 4.9, cost_per_kg := some 28 }

/-- Catalog entry `egg_yolks`. -/
def ingEggYolks : IngredientData :=
  { id := "egg_yolks", name := "Egg Yolks", category := .other,
    water_pct := 50.4, fat_pct := 31.9, other_solids_pct := some 17.7,
    sp_coeff := some 0.1, pac_coeff := some 25, cost_per_kg := some 450 }

/-- Catalog entry `vanilla_extract`. -/
def ingVanillaExtract : IngredientData :=
  { id := "vanilla_extract", name := "Vanilla Extract", category := .flavor,
    water_pct := 65, fat_pct := 0, other_solids_pct := some 35,
    sp_coeff := some 0.2, pac_coeff := some 30, cost_per_kg := some 3200 }

/-- Seed catalog `DEFAULT_INGREDIENTS` from `src/lib/ingredientLibrary.ts`. -/
def DEFAULT_INGREDIENTS : List IngredientData :=
  [ ingSucrose, ingDextrose, ingGlucoseDE60, ingLactose, ingMilk3,
    ingCream25, ingSmp, ingStabilizer, ingGulabJamunPaste, ingGulabJamun,
    ingRabri, ingJalebi, ingCocoaDp, ingHeavyCream, ingWholeMilk,
    ingEggYolks, ingVanillaExtract ]

/-- ASCII model of JS `String.prototype.toLowerCase()`. -/
def strToLower (s : String) : String :=
  String.mk (s.data.map Char.toLower)

/-- Embeds `getIngredientById` from `src/lib/ingredientLibrary.ts`. -/
def getIngredientById (id : String) : Option IngredientData :=
  DEFAULT_INGREDIENTS.find? (fun ing => ing.id == id)

/-- Embeds `getIngredientByName` from `src/lib/ingredientLibrary.ts`
(case-insensitive exact name match). -/
def getIngredientByName (name : String) : Option IngredientData :=
  DEFAULT_INGREDIENTS.find? (fun ing => strToLower ing.name == strToLower name)

/-- A recipe row `{ ing, grams }` as consumed by `calcMetrics`. -/
structure Row where
  ing : IngredientData
  grams : ℚ
deriving DecidableEq

/-- Embeds `CalcOptions` from `src/lib/calc.ts`. -/
structure CalcOptions where
  evaporation_pct : Option ℚ := none
deriving DecidableEq

/-- Embeds `Metrics` output record of `calcMetrics`, from `src/lib/calc.ts`. -/
@[ext]
structure Metrics where
  total_g : ℚ
  water_g : ℚ
  sugars_g : ℚ
  fat_g : ℚ
  msnf_g : ℚ
  other_g : ℚ
  water_pct : ℚ
  sugars_pct : ℚ
  fat_pct : ℚ
  msnf_pct : ℚ
  other_pct : ℚ
  ts_add_g : ℚ
  ts_mass_g : ℚ
  ts_add_pct : ℚ
  ts_mass_pct : ℚ
  sp : ℚ
  pac : ℚ
deriving DecidableEq

/-- Sum of `grams` over the rows (`rows.reduce((a, r) => a + (r.grams || 0), 0)`). -/
def totalG (rows : List Row) : ℚ :=
  (rows.map (fun r => r.grams)).sum

/-- Accumulated water mass `g * (ing.water_pct || 0) / 100`. -/
def waterG (rows : List Row) : ℚ :=
  (rows.map (fun r => r.grams * r.ing.water_pct / 100)).sum

/-- Per-row sugar mass `g * (ing.sugars_pct || 0) / 100`. -/
def sugarOfRow (r : Row) : ℚ :=
  r.grams * jsOr r.ing.sugars_pct 0 / 100

/-- Accumulated sugar mass. -/
def sugarsG (rows : List Row) : ℚ :=
  (rows.map sugarOfRow).sum

/-- Accumulated fat mass. -/
def fatG (rows : List Row) : ℚ :=
  (rows.map (fun r => r.grams * r.ing.fat_pct / 100)).sum

/-- Accumulated MSNF mass. -/
def msnfG (rows : List Row) : ℚ :=
  (rows.map (fun r => r.grams * jsOr r.ing.msnf_pct 0 / 100)).sum

/-- Accumulated other-solids mass. -/
def otherG (rows : List Row) : ℚ :=
  (rows.map (fun r => r.grams * jsOr r.ing.other_solids_pct 0 / 100)).sum

/-- Embeds `Math.max(0, Math.min(100, opts.evaporation_pct ?? 0))`. -/
def clampEvap (opts : CalcOptions) : ℚ :=
  max 0 (min 100 (opts.evaporation_pct.getD 0))

/-- Water after evaporation: `water_g * (1 - evap / 100)`. -/
def waterEvapG (rows : List Row) (opts : CalcOptions) : ℚ :=
  waterG rows * (1 - clampEvap opts / 100)

/-- Total mass after evaporation: `total_g - (water_g - water_evap_g)`. -/
def totalAfterEvapG (rows : List Row) (opts : CalcOptions) : ℚ :=
  totalG rows - (waterG rows - waterEvapG rows opts)

/-- The percentage helper `pct` in `calcMetrics`: guarded against a
non-positive denominator. -/
def pctOf (total x : ℚ) : ℚ :=
  if total > 0 then x / total * 100 else 0

/-- Per-row SP contribution in `calcMetrics`
(`(sug_g / total) * (ing.sp_coeff || 1.0) * 100`, skipped when
`sug_g <= 0 || total <= 0`). -/
def spTerm (total : ℚ) (r : Row) : ℚ :=
  if sugarOfRow r ≤ 0 ∨ total ≤ 0 then 0
  else sugarOfRow r / total * jsOr r.ing.sp_coeff 1 * 100

/-- Per-row PAC contribution in `calcMetrics`
(`(sug_g / total) * (ing.pac_coeff || 1.0) * 100`). -/
def pacTerm (total : ℚ) (r : Row) : ℚ :=
  if sugarOfRow r ≤ 0 ∨ total ≤ 0 then 0
  else sugarOfRow r / total * jsOr r.ing.pac_coeff 1 * 100

/-- Embeds `calcMetrics` from `src/lib/calc.ts` (lines 41-88). -/
def calcMetrics (rows : List Row) (opts : CalcOptions) : Metrics :=
  let total := totalAfterEvapG rows opts
  { total_g := total
    water_g := waterEvapG rows opts
    sugars_g := sugarsG rows
    fat_g := fatG rows
    msnf_g := msnfG rows
    other_g := otherG rows
    water_pct := pctOf total (waterEvapG rows opts)
    sugars_pct := pctOf total (sugarsG rows)
    fat_pct := pctOf total (fatG rows)
    msnf_pct := pctOf total (msnfG rows)
    other_pct := pctOf total (otherG rows)
    ts_add_g := sugarsG rows + fatG rows + msnfG rows + otherG rows
    ts_mass_g := total - waterEvapG rows opts
    ts_add_pct := pctOf total (sugarsG rows + fatG rows + msnfG rows + otherG rows)
    ts_mass_pct := pctOf total (total - waterEvapG rows opts)
    sp := (rows.map (spTerm total)).sum
    pac := (rows.map (pacTerm total)).sum }

/-- End-to-end scenario A recipe: the white-base recipe of the spec and of
`tests/sanity.spec.ts`, over the seed catalog. -/
def scenarioA : List Row :=
  [ { ing := ingMilk3, grams := 580 },
    { ing := ingCream25, grams := 200 },
    { ing := ingSucrose, grams := 170 },
    { ing := ingSmp, grams := 45 },
    { ing := ingStabilizer, grams := 5 } ]

/-- C3: evaluating `calcMetrics` on the scenario-A recipe (zero evaporation).
Total mass, additive total solids, sugars, MSNF and SP land inside the
claimed ranges, but fat percent is 6.785 (the claim and the repository's own
sanity test require the open interval (7, 10)) and PAC is 1700 (the claim
and the sanity test require (20, 30)): the 100-scale `pac_coeff` of the seed
catalog is multiplied by a further 100 inside `calcMetrics`. -/
theorem calcMetrics_scenarioA_divergence :
    (calcMetrics scenarioA {}).total_g = 1000 ∧
    32 < (calcMetrics scenarioA {}).ts_add_pct ∧
      (calcMetrics scenarioA {}).ts_add_pct < 38 ∧
    16 < (calcMetrics scenarioA {}).sugars_pct ∧
      (calcMetrics scenarioA {}).sugars_pct < 20 ∧
    8 < (calcMetrics scenarioA {}).msnf_pct ∧
      (calcMetrics scenarioA {}).msnf_pct < 12 ∧
    14 < (calcMetrics scenarioA {}).sp ∧ (calcMetrics scenarioA {}).sp < 22 ∧
    (calcMetrics scenarioA {}).fat_pct = 6.785 ∧
    (calcMetrics scenarioA {}).pac = 1700 ∧
    ¬ (7 < (calcMetrics scenarioA {}).fat_pct ∧
        (calcMetrics scenarioA {}).fat_pct < 10) ∧
    ¬ (20 < (calcMetrics scenarioA {}).pac ∧
        (calcMetrics scenarioA {}).pac < 30) := by
  norm_num [calcMetrics, totalAfterEvapG, totalG, waterG, waterEvapG,
    clampEvap, sugarsG, sugarOfRow, fatG, msnfG, otherG, pctOf, spTerm,
    pacTerm, jsOr, scenarioA, ingMilk3, ingCream25, ingSucrose, ingSmp,
    ingStabilizer]

/-- Scale every line's mass by `k`. -/
def scaleRows (k : ℚ) (rows : List Row) : List Row :=
  rows.map (fun r => { r with grams := k * r.grams })

/-- Scale every line's mass by `k` in a name-keyed recipe. -/
def scaleRecipe (k : ℚ) (recipe : List (String × ℚ)) : List (String × ℚ) :=
  recipe.map (fun p => (p.1, k * p.2))

theorem sugarOfRow_scale (k : ℚ) (r : Row) :
    sugarOfRow { r with grams := k * r.grams } = k * sugarOfRow r := by
  simp only [sugarOfRow]
  ring

theorem totalG_scale (k : ℚ) (rows : List Row) :
    totalG (scaleRows k rows) = k * totalG rows := by
  induction rows with
  | nil => simp [totalG, scaleRows]
  | cons a l ih =>
      simp only [totalG, scaleRows, List.map_cons, List.sum_cons] at ih ⊢
      rw [ih]
      ring

theorem waterG_scale (k : ℚ) (rows : List Row) :
    waterG (scaleRows k rows) = k * waterG rows := by
  induction rows with
  | nil => simp [waterG, scaleRows]
  | cons a l ih =>
      simp only [waterG, scaleRows, List.map_cons, List.sum_cons] at ih ⊢
      rw [ih]
      ring

theorem totalAfterEvapG_scale (k : ℚ) (rows : List Row) (opts : CalcOptions) :
    totalAfterEvapG (scaleRows k rows) opts = k * totalAfterEvapG rows opts := by
  simp only [totalAfterEvapG, waterEvapG, totalG_scale, waterG_scale]
  ring

theorem spTerm_scale {k : ℚ} (hk : 0 < k) (T : ℚ) (r : Row) :
    spTerm (k * T) { r with grams := k * r.grams } = spTerm T r := by
  have hnz : k ≠ 0 := ne_of_gt hk
  simp only [spTerm, sugarOfRow_scale]
  by_cases hs : sugarOfRow r ≤ 0
  · have hs' : k * sugarOfRow r ≤ 0 := mul_nonpos_of_nonneg_of_nonpos hk.le hs
    simp [hs, hs']
  · push_neg at hs
    by_cases ht : T ≤ 0
    · have ht' : k * T ≤ 0 := mul_nonpos_of_nonneg_of_nonpos hk.le ht
      simp [ht, ht']
    · push_neg at ht
      have c1 : ¬ (k * sugarOfRow r ≤ 0 ∨ k * T ≤ 0) := by
        push_neg
        exact ⟨mul_pos hk hs, mul_pos hk ht⟩
      have c2 : ¬ (sugarOfRow r ≤ 0 ∨ T ≤ 0) := by
        push_neg
        exact ⟨hs, ht⟩
      rw [if_neg c1, if_neg c2, mul_div_mul_left _ _ hnz]

theorem pacTerm_scale {k : ℚ} (hk : 0 < k) (T : ℚ) (r : Row) :
    pacTerm (k * T) { r with grams := k * r.grams } = pacTerm T r := by
  have hnz : k ≠ 0 := ne_of_gt hk
  simp only [pacTerm, sugarOfRow_scale]
  by_cases hs : sugarOfRow r ≤ 0
  · have hs' : k * sugarOfRow r ≤ 0 := mul_nonpos_of_nonneg_of_nonpos hk.le hs
    simp [hs, hs']
  · push_neg at hs
    by_cases ht : T ≤ 0
    · have ht' : k * T ≤ 0 := mul_nonpos_of_nonneg_of_nonpos hk.le ht
      simp [ht, ht']
    · push_neg at ht
      have c1 : ¬ (k * sugarOfRow r ≤ 0 ∨ k * T ≤ 0) := by
        push_neg
        exact ⟨mul_pos hk hs, mul_pos hk ht⟩
      have c2 : ¬ (sugarOfRow r ≤ 0 ∨ T ≤ 0) := by
        push_neg
        exact ⟨hs, ht⟩
      rw [if_neg c1, if_neg c2, mul_div_mul_left _ _ hnz]

theorem sum_spTerm_scale {k : ℚ} (hk : 0 < k) (T : ℚ) (rows : List Row) :
    ((scaleRows k rows).map (spTerm (k * T))).sum = (rows.map (spTerm T)).sum := by
  induction rows with
  | nil => simp [scaleRows]
  | cons a l ih =>
      simp only [scaleRows, List.map_cons, List.sum_cons] at ih ⊢
      rw [spTerm_scale hk, ih]

theorem sum_pacTerm_scale {k : ℚ} (hk : 0 < k) (T : ℚ) (rows : List Row) :
    ((scaleRows k rows).map (pacTerm (k * T))).sum = (rows.map (pacTerm T)).sum := by
  induction rows with
  | nil => simp [scaleRows]
  | cons a l ih =>
      simp only [scaleRows, List.map_cons, List.sum_cons] at ih ⊢
      rw [pacTerm_scale hk, ih]

theorem calcMetrics_scale {k : ℚ} (hk : 0 < k) (rows : List Row)
    (opts : CalcOptions) :
    (calcMetrics (scaleRows k rows) opts).sp = (calcMetrics rows opts).sp ∧
    (calcMetrics (scaleRows k rows) opts).pac = (calcMetrics rows opts).pac ∧
    (calcMetrics (scaleRows k rows) opts).total_g
      = k * (calcMetrics rows opts).total_g := by
  refine ⟨?_, ?_, ?_⟩
  · simp only [calcMetrics]
    rw [totalAfterEvapG_scale, sum_spTerm_scale hk]
  · simp only [calcMetrics]
    rw [totalAfterEvapG_scale, sum_pacTerm_scale hk]
  · simp only [calcMetrics]
    exact totalAfterEvapG_scale k rows opts

theorem clampEvap_nonneg (opts : CalcOptions) : 0 ≤ clampEvap opts :=
  le_max_left 0 _

theorem clampEvap_le_100 (opts : CalcOptions) : clampEvap opts ≤ 100 := by
  unfold clampEvap
  exact max_le (by norm_num) (min_le_left _ _)

theorem waterG_nonneg (rows : List Row) (hg : ∀ r ∈ rows, 0 ≤ r.grams)
    (hw : ∀ r ∈ rows, 0 ≤ r.ing.water_pct) : 0 ≤ waterG rows := by
  apply List.sum_nonneg
  intro x hx
  obtain ⟨r, hr, rfl⟩ := List.mem_map.1 hx
  have := hg r hr
  have := hw r hr
  positivity

theorem dryG_eq (rows : List Row) :
    totalG rows - waterG rows
      = (rows.map (fun r => r.grams * (1 - r.ing.water_pct / 100))).sum := by
  induction rows with
  | nil => simp [totalG, waterG]
  | cons a l ih =>
      simp only [totalG, waterG, List.map_cons, List.sum_cons] at ih ⊢
      have : (l.map (fun r => r.grams)).sum - (l.map
          (fun r => r.grams * r.ing.water_pct / 100)).sum
          = (l.map (fun r => r.grams * (1 - r.ing.water_pct / 100))).sum := by
        linarith [ih]
      linarith [this]

theorem totalAfterEvapG_pos (rows : List Row) (opts : CalcOptions)
    (hg : ∀ r ∈ rows, 0 ≤ r.grams)
    (hw : ∀ r ∈ rows, 0 ≤ r.ing.water_pct ∧ r.ing.water_pct ≤ 100)
    (s : Row) (hs : s ∈ rows) (hw0 : s.ing.water_pct = 0)
    (hm : 0 < s.grams) : 0 < totalAfterEvapG rows opts := by
  have hwater : 0 ≤ waterG rows :=
    waterG_nonneg rows hg (fun r hr => (hw r hr).1)
  have hdry : s.grams ≤ totalG rows - waterG rows := by
    rw [dryG_eq]
    have hmem : s.grams * (1 - s.ing.water_pct / 100)
        ∈ rows.map (fun r => r.grams * (1 - r.ing.water_pct / 100)) :=
      List.mem_map.2 ⟨s, hs, rfl⟩
    have hterm : s.grams * (1 - s.ing.water_pct / 100) = s.grams := by
      rw [hw0]
      ring
    calc s.grams = s.grams * (1 - s.ing.water_pct / 100) := hterm.symm
      _ ≤ _ := List.single_le_sum (fun x hx => by
          obtain ⟨r, hr, rfl⟩ := List.mem_map.1 hx
          have h1 := hg r hr
          have h2 := (hw r hr).2
          have : 0 ≤ 1 - r.ing.water_pct / 100 := by linarith
          positivity) _ hmem
  have hevap : waterG rows * (clampEvap opts / 100) ≤ waterG rows := by
    have h1 : clampEvap opts / 100 ≤ 1 := by
      have := clampEvap_le_100 opts
      linarith
    have h0 : 0 ≤ clampEvap opts / 100 := by
      have := clampEvap_nonneg opts
      positivity
    nlinarith
  have : totalAfterEvapG rows opts
      = totalG rows - waterG rows * (clampEvap opts / 100) := by
    unfold totalAfterEvapG waterEvapG
    ring
  rw [this]
  calc (0 : ℚ) < s.grams := hm
    _ ≤ totalG rows - waterG rows := hdry
    _ ≤ totalG rows - waterG rows * (clampEvap opts / 100) := by linarith [hevap]

/-- The sucrose-line and dextrose-line recipes have the same composition
accumulators and hence the same post-evaporation total. -/
theorem totalAfterEvapG_sub_dex (pre post : List Row) (m : ℚ)
    (opts : CalcOptions) :
    totalAfterEvapG (pre ++ { ing := ingDextrose, grams := m } :: post) opts
      = totalAfterEvapG (pre ++ { ing := ingSucrose, grams := m } :: post)
          opts := by
  simp only [totalAfterEvapG, waterEvapG, totalG, waterG, List.map_append,
    List.sum_append, List.map_cons, List.sum_cons, ingSucrose, ingDextrose]

/-- C5 (substitution monotonicity, `calcMetrics`): replacing a sucrose line
of mass `m > 0` with a dextrose line of the same mass, all other lines
unchanged (nonnegative masses, water fractions in [0,100]), strictly
decreases SP and strictly increases PAC. -/
theorem calcMetrics_dextrose_vs_sucrose (pre post : List Row) (m : ℚ)
    (opts : CalcOptions) (hm : 0 < m)
    (hg : ∀ r ∈ pre ++ post, 0 ≤ r.grams)
    (hw : ∀ r ∈ pre ++ post, 0 ≤ r.ing.water_pct ∧ r.ing.water_pct ≤ 100) :
    (calcMetrics (pre ++ { ing := ingDextrose, grams := m } :: post) opts).sp
      < (calcMetrics (pre ++ { ing := ingSucrose, grams := m } :: post)
          opts).sp ∧
    (calcMetrics (pre ++ { ing := ingSucrose, grams := m } :: post) opts).pac
      < (calcMetrics (pre ++ { ing := ingDextrose, grams := m } :: post)
          opts).pac := by
  set rowsS := pre ++ { ing := ingSucrose, grams := m } :: post with hS
  set rowsD := pre ++ { ing := ingDextrose, grams := m } :: post with hD
  have hgS : ∀ r ∈ rowsS, 0 ≤ r.grams := by
    intro r hr
    rw [hS] at hr
    rcases List.mem_append.1 hr with h | h
    · exact hg r (List.mem_append_left _ h)
    · rcases List.mem_cons.1 h with h | h
      · rw [h]
        exact hm.le
      · exact hg r (List.mem_append_right _ h)
  have hwS : ∀ r ∈ rowsS, 0 ≤ r.ing.water_pct ∧ r.ing.water_pct ≤ 100 := by
    intro r hr
    rw [hS] at hr
    rcases List.mem_append.1 hr with h | h
    · exact hw r (List.mem_append_left _ h)
    · rcases List.mem_cons.1 h with h | h
      · rw [h]
        simp [ingSucrose]
      · exact hw r (List.mem_append_right _ h)
  have hsmem : ({ ing := ingSucrose, grams := m } : Row) ∈ rowsS := by
    rw [hS]
    exact List.mem_append_right _ (List.mem_cons_self _ _)
  have hT : 0 < totalAfterEvapG rowsS opts :=
    totalAfterEvapG_pos rowsS opts hgS hwS _ hsmem (by simp [ingSucrose]) hm
  have hTeq : totalAfterEvapG rowsD opts = totalAfterEvapG rowsS opts :=
    totalAfterEvapG_sub_dex pre post m opts
  set T := totalAfterEvapG rowsS opts with hTdef
  have hsug : sugarOfRow ({ ing := ingSucrose, grams := m } : Row) = m := by
    simp [sugarOfRow, ingSucrose, jsOr]
  have hsugD : sugarOfRow ({ ing := ingDextrose, grams := m } : Row) = m := by
    simp [sugarOfRow, ingDextrose, jsOr]
  have hcond : ¬ (m ≤ 0 ∨ T ≤ 0) := by
    push_neg
    exact ⟨hm, hT⟩
  have hdivpos : 0 < m / T := div_pos hm hT
  constructor
  · simp only [calcMetrics, hTeq]
    simp only [hS, hD, List.map_append, List.sum_append, List.map_cons,
      List.sum_cons]
    have hlt : spTerm T { ing := ingDextrose, grams := m }
        < spTerm T { ing := ingSucrose, grams := m } := by
      have e1 : jsOr ingDextrose.sp_coeff 1 = 37 / 50 := by
        norm_num [ingDextrose, jsOr]
      have e2 : jsOr ingSucrose.sp_coeff 1 = 1 := by
        norm_num [ingSucrose, jsOr]
      simp only [spTerm, hsug, hsugD, if_neg hcond, e1, e2]
      have := hdivpos
      nlinarith [hdivpos]
    exact add_lt_add_left (add_lt_add_right hlt _) _
  · simp only [calcMetrics, hTeq]
    simp only [hS, hD, List.map_append, List.sum_append, List.map_cons,
      List.sum_cons]
    have hlt : pacTerm T { ing := ingSucrose, grams := m }
        < pacTerm T { ing := ingDextrose, grams := m } := by
      have e1 : jsOr ingSucrose.pac_coeff 1 = 100 := by
        norm_num [ingSucrose, jsOr]
      have e2 : jsOr ingDextrose.pac_coeff 1 = 190 := by
        norm_num [ingDextrose, jsOr]
      simp only [pacTerm, hsug, hsugD, if_neg hcond, e1, e2]
      nlinarith [hdivpos]
    exact add_lt_add_left (add_lt_add_right hlt _) _

/-- C5 witness (end-to-end scenario B): in an 850 g milk base, 150 g dextrose
yields strictly lower SP and strictly higher PAC than 150 g sucrose. -/
theorem calcMetrics_dextrose_vs_sucrose_witness :
    (calcMetrics [ { ing := ingMilk3, grams := 850 },
        { ing := ingDextrose, grams := 150 } ] {}).sp
      < (calcMetrics [ { ing := ingMilk3, grams := 850 },
          { ing := ingSucrose, grams := 150 } ] {}).sp ∧
    (calcMetrics [ { ing := ingMilk3, grams := 850 },
        { ing := ingSucrose, grams := 150 } ] {}).pac
      < (calcMetrics [ { ing := ingMilk3, grams := 850 },
          { ing := ingDextrose, grams := 150 } ] {}).pac :=
  calcMetrics_dextrose_vs_sucrose [ { ing := ingMilk3, grams := 850 } ] []
    150 {} (by norm_num)
    (by
      intro r hr
      simp only [List.append_nil, List.mem_singleton] at hr
      rw [hr]
      norm_num)
    (by
      intro r hr
      simp only [List.append_nil, List.mem_singleton] at hr
      rw [hr]
      norm_num [ingMilk3])

/-- The warning text pushed by `calculateRecipeMetrics` for an unknown
ingredient name. -/
def warningString (name : String) : String :=
  "Warning: Unknown ingredient \"" ++ name ++ "\" - using default values"

/-- The lines of a name-keyed recipe that `calculateRecipeMetrics` actually
accumulates: positive mass and a successful catalog lookup, in order. -/
def knownRows (recipe : List (String × ℚ)) :
    List (String × ℚ × IngredientData) :=
  recipe.filterMap (fun p =>
    if p.2 ≤ 0 then none
    else (getIngredientByName p.1).map (fun i => (p.1, p.2, i)))

/-- The unknown-ingredient warnings pushed while iterating the recipe. -/
def unknownWarnings (recipe : List (String × ℚ)) : List String :=
  recipe.filterMap (fun p : String × ℚ =>
    if p.2 ≤ 0 then (none : Option String)
    else
      match getIngredientByName p.1 with
      | some _ => none
      | none => some (warningString p.1))

/-- Embeds `totalWeight` accumulator of `calculateRecipeMetrics`. -/
def totalWeightAcc (recipe : List (String × ℚ)) : ℚ :=
  ((knownRows recipe).map (fun t => t.2.1)).sum

/-- Embeds `totalWater` accumulator (pre-evaporation). -/
def totalWaterAcc (recipe : List (String × ℚ)) : ℚ :=
  ((knownRows recipe).map (fun t => t.2.1 * t.2.2.water_pct / 100)).sum

/-- Per-line `sugarContent` of `calculateRecipeMetrics`. -/
def sugarContentOf (t : String × ℚ × IngredientData) : ℚ :=
  t.2.1 * jsOr t.2.2.sugars_pct 0 / 100

/-- Embeds `totalSugars` accumulator. -/
def totalSugarsAcc (recipe : List (String × ℚ)) : ℚ :=
  ((knownRows recipe).map sugarContentOf).sum

/-- Embeds `totalFat` accumulator. -/
def totalFatAcc (recipe : List (String × ℚ)) : ℚ :=
  ((knownRows recipe).map (fun t => t.2.1 * t.2.2.fat_pct / 100)).sum

/-- Embeds `totalMsnf` accumulator. -/
def totalMsnfAcc (recipe : List (String × ℚ)) : ℚ :=
  ((knownRows recipe).map (fun t => t.2.1 * jsOr t.2.2.msnf_pct 0 / 100)).sum

/-- Embeds `totalOtherSolids` accumulator. -/
def totalOtherAcc (recipe : List (String × ℚ)) : ℚ :=
  ((knownRows recipe).map
    (fun t => t.2.1 * jsOr t.2.2.other_solids_pct 0 / 100)).sum

/-- Per-line SP contribution `sugarContent * (ingredient.sp_coeff || 0)`. -/
def spContribOf (t : String × ℚ × IngredientData) : ℚ :=
  sugarContentOf t * jsOr t.2.2.sp_coeff 0

/-- Per-line PAC contribution
`sugarContent * (ingredient.pac_coeff || 0) / 100`. -/
def pacContribOf (t : String × ℚ × IngredientData) : ℚ :=
  sugarContentOf t * jsOr t.2.2.pac_coeff 0 / 100

/-- Embeds `totalSp` accumulator. -/
def totalSpAcc (recipe : List (String × ℚ)) : ℚ :=
  ((knownRows recipe).map spContribOf).sum

/-- Embeds `totalPac` accumulator. -/
def totalPacAcc (recipe : List (String × ℚ)) : ℚ :=
  ((knownRows recipe).map pacContribOf).sum

/-- Embeds `totalCost` accumulator `(amount / 1000) * (ingredient.cost_per_kg || 0)`. -/
def totalCostAcc (recipe : List (String × ℚ)) : ℚ :=
  ((knownRows recipe).map (fun t => t.2.1 / 1000 * jsOr t.2.2.cost_per_kg 0)).sum

/-- Simple exact decimal rendering of `q` with one decimal digit, modelling
JS `Number.prototype.toFixed(1)` over the embedding's rationals. -/
def toFixed1 (q : ℚ) : String :=
  let n : ℤ := ⌊q * 10 + 1 / 2⌋
  (if n < 0 then "-" else "") ++ toString (n.natAbs / 10) ++ "."
    ++ toString (n.natAbs % 10)

/-- Rendering of a JS number inside a template string, over the embedding's
rationals. -/
def fmtQ (q : ℚ) : String :=
  if q.den = 1 then toString q.num else toString q.num ++ "/" ++ toString q.den

/-- The evaporation diagnostic message. -/
def evapMessage (evaporatedWater evaporationPct : ℚ) : String :=
  "Evaporation: " ++ toFixed1 evaporatedWater ++ "g water removed ("
    ++ fmtQ evaporationPct ++ "%)"

/-- The total-solids cross-check diagnostic message. -/
def tsMessage (ratio : ℚ) : String :=
  "TS methods differ by " ++ toFixed1 ratio ++ "% - check ingredient data"

/-- Embeds `RecipeMetrics & ValidationResult` output record of
`calculateRecipeMetrics`, from `src/lib/calc.ts`. -/
@[ext]
structure RecipeMetrics where
  water : ℚ
  sugars : ℚ
  fat : ℚ
  msnf : ℚ
  other_solids : ℚ
  ts_additive : ℚ
  ts_mass_balance : ℚ
  sp : ℚ
  pac : ℚ
  total_weight : ℚ
  cost_per_batch : ℚ
  sp_contributions : List (String × ℚ)
  pac_contributions : List (String × ℚ)
  ts_difference : ℚ
  ts_warning : Bool
  messages : List String
deriving DecidableEq

/-- Embeds `calculateRecipeMetrics` from `src/lib/calc.ts` (lines 174-283): the
name-keyed calculator over the seed catalog.  Lines with non-positive mass
are skipped; lines whose name is not found in the catalog are skipped after
pushing a warning. -/
def calculateRecipeMetrics (recipe : List (String × ℚ))
    (evaporationPct : ℚ) : RecipeMetrics :=
  let totalWater0 := totalWaterAcc recipe
  let totalWeight0 := totalWeightAcc recipe
  let evapW := if evaporationPct > 0 then totalWater0 * (evaporationPct / 100)
    else 0
  let totalWater := totalWater0 - evapW
  let totalWeight := totalWeight0 - evapW
  let tsAdditive := totalSugarsAcc recipe + totalFatAcc recipe
    + totalMsnfAcc recipe + totalOtherAcc recipe
  let tsMassBalance := totalWeight - totalWater
  let tsDifference := |tsAdditive - tsMassBalance|
  { water := if totalWeight > 0 then totalWater / totalWeight * 100 else 0
    sugars := if totalWeight > 0 then totalSugarsAcc recipe / totalWeight * 100
      else 0
    fat := if totalWeight > 0 then totalFatAcc recipe / totalWeight * 100
      else 0
    msnf := if totalWeight > 0 then totalMsnfAcc recipe / totalWeight * 100
      else 0
    other_solids := if totalWeight > 0
      then totalOtherAcc recipe / totalWeight * 100 else 0
    ts_additive := if totalWeight > 0 then tsAdditive / totalWeight * 100
      else 0
    ts_mass_balance := if totalWeight > 0
      then tsMassBalance / totalWeight * 100 else 0
    sp := totalSpAcc recipe
    pac := totalPacAcc recipe
    total_weight := totalWeight
    cost_per_batch := totalCostAcc recipe
    sp_contributions := (knownRows recipe).map (fun t => (t.1, spContribOf t))
    pac_contributions := (knownRows recipe).map
      (fun t => (t.1, pacContribOf t))
    ts_difference := tsDifference
    ts_warning := decide (tsDifference > totalWeight * 0.005)
    messages := unknownWarnings recipe
      ++ (if evaporationPct > 0 then [evapMessage evapW evaporationPct]
          else [])
      ++ (if tsDifference > totalWeight * 0.005
          then [tsMessage (tsDifference / totalWeight * 100)] else []) }

theorem knownRows_scale {k : ℚ} (hk : 0 < k) (recipe : List (String × ℚ)) :
    knownRows (scaleRecipe k recipe)
      = (knownRows recipe).map (fun t => (t.1, k * t.2.1, t.2.2)) := by
  induction recipe with
  | nil => rfl
  | cons p l ih =>
      simp only [scaleRecipe, List.map_cons] at ih ⊢
      simp only [knownRows, List.filterMap_cons] at ih ⊢
      by_cases h : p.2 ≤ 0
      · have h' : k * p.2 ≤ 0 := mul_nonpos_of_nonneg_of_nonpos hk.le h
        simp [h, h', ih]
      · have h' : ¬ k * p.2 ≤ 0 := not_le.2 (mul_pos hk (not_le.1 h))
        cases hl : getIngredientByName p.1 with
        | none => simp [h, h', hl, ih]
        | some i => simp [h, h', hl, ih]

theorem totalWeightAcc_scale {k : ℚ} (hk : 0 < k)
    (recipe : List (String × ℚ)) :
    totalWeightAcc (scaleRecipe k recipe) = k * totalWeightAcc recipe := by
  unfold totalWeightAcc
  rw [knownRows_scale hk, List.map_map]
  have hcomp : ((fun t : String × ℚ × IngredientData => t.2.1) ∘
      fun t : String × ℚ × IngredientData => (t.1, k * t.2.1, t.2.2))
      = fun t : String × ℚ × IngredientData => k * t.2.1 := by
    funext t
    rfl
  rw [hcomp, List.sum_map_mul_left]

theorem totalWaterAcc_scale {k : ℚ} (hk : 0 < k)
    (recipe : List (String × ℚ)) :
    totalWaterAcc (scaleRecipe k recipe) = k * totalWaterAcc recipe := by
  unfold totalWaterAcc
  rw [knownRows_scale hk, List.map_map]
  have hcomp : ((fun t : String × ℚ × IngredientData =>
        t.2.1 * t.2.2.water_pct / 100) ∘
      fun t : String × ℚ × IngredientData => (t.1, k * t.2.1, t.2.2))
      = fun t : String × ℚ × IngredientData
        => k * (t.2.1 * t.2.2.water_pct / 100) := by
    funext t
    show k * t.2.1 * t.2.2.water_pct / 100 = _
    ring
  rw [hcomp, List.sum_map_mul_left]

theorem totalSpAcc_scale {k : ℚ} (hk : 0 < k)
    (recipe : List (String × ℚ)) :
    totalSpAcc (scaleRecipe k recipe) = k * totalSpAcc recipe := by
  unfold totalSpAcc
  rw [knownRows_scale hk, List.map_map]
  have hcomp : (spContribOf ∘
      fun t : String × ℚ × IngredientData => (t.1, k * t.2.1, t.2.2))
      = fun t : String × ℚ × IngredientData => k * spContribOf t := by
    funext t
    show sugarContentOf (t.1, k * t.2.1, t.2.2) * jsOr t.2.2.sp_coeff 0 = _
    simp only [sugarContentOf, spContribOf]
    ring
  rw [hcomp, List.sum_map_mul_left]

theorem totalPacAcc_scale {k : ℚ} (hk : 0 < k)
    (recipe : List (String × ℚ)) :
    totalPacAcc (scaleRecipe k recipe) = k * totalPacAcc recipe := by
  unfold totalPacAcc
  rw [knownRows_scale hk, List.map_map]
  have hcomp : (pacContribOf ∘
      fun t : String × ℚ × IngredientData => (t.1, k * t.2.1, t.2.2))
      = fun t : String × ℚ × IngredientData => k * pacContribOf t := by
    funext t
    show sugarContentOf (t.1, k * t.2.1, t.2.2) * jsOr t.2.2.pac_coeff 0 / 100
      = _
    simp only [sugarContentOf, pacContribOf]
    ring
  rw [hcomp, List.sum_map_mul_left]

/-- C1 (amended): scaling every line's mass by `k > 0` leaves `calcMetrics`'
SP and PAC unchanged and scales its `total_g` by `k`; for
`calculateRecipeMetrics`, `total_weight` scales by `k` as claimed, but SP
and PAC also scale by `k` (they are mass-based, not concentration-based). -/
theorem metrics_scale_behavior (rows : List Row) (opts : CalcOptions)
    (recipe : List (String × ℚ)) (e : ℚ) {k : ℚ} (hk : 0 < k) :
    (calcMetrics (scaleRows k rows) opts).sp = (calcMetrics rows opts).sp ∧
    (calcMetrics (scaleRows k rows) opts).pac
      = (calcMetrics rows opts).pac ∧
    (calcMetrics (scaleRows k rows) opts).total_g
      = k * (calcMetrics rows opts).total_g ∧
    (calculateRecipeMetrics (scaleRecipe k recipe) e).total_weight
      = k * (calculateRecipeMetrics recipe e).total_weight ∧
    (calculateRecipeMetrics (scaleRecipe k recipe) e).sp
      = k * (calculateRecipeMetrics recipe e).sp ∧
    (calculateRecipeMetrics (scaleRecipe k recipe) e).pac
      = k * (calculateRecipeMetrics recipe e).pac := by
  obtain ⟨h1, h2, h3⟩ := calcMetrics_scale hk rows opts
  refine ⟨h1, h2, h3, ?_, ?_, ?_⟩
  · simp only [calculateRecipeMetrics]
    rw [totalWeightAcc_scale hk, totalWaterAcc_scale hk]
    split_ifs with h
    · ring
    · ring
  · simp only [calculateRecipeMetrics]
    exact totalSpAcc_scale hk recipe
  · simp only [calculateRecipeMetrics]
    exact totalPacAcc_scale hk recipe

/-- C1 witness: the amended scaling behaviour at the concrete scenario-A
recipe, a one-line sucrose recipe and `k = 2`. -/
theorem metrics_scale_behavior_witness :
    (calcMetrics (scaleRows 2 scenarioA) {}).sp
      = (calcMetrics scenarioA {}).sp ∧
    (calcMetrics (scaleRows 2 scenarioA) {}).pac
      = (calcMetrics scenarioA {}).pac ∧
    (calcMetrics (scaleRows 2 scenarioA) {}).total_g
      = 2 * (calcMetrics scenarioA {}).total_g ∧
    (calculateRecipeMetrics (scaleRecipe 2 [("Sucrose", 100)]) 0).total_weight
      = 2 * (calculateRecipeMetrics [("Sucrose", 100)] 0).total_weight ∧
    (calculateRecipeMetrics (scaleRecipe 2 [("Sucrose", 100)]) 0).sp
      = 2 * (calculateRecipeMetrics [("Sucrose", 100)] 0).sp ∧
    (calculateRecipeMetrics (scaleRecipe 2 [("Sucrose", 100)]) 0).pac
      = 2 * (calculateRecipeMetrics [("Sucrose", 100)] 0).pac :=
  metrics_scale_behavior scenarioA {} [("Sucrose", 100)] 0 (by norm_num)

theorem getIngredientByName_Sucrose :
    getIngredientByName "Sucrose" = some ingSucrose := rfl

/-- C1 counterexample: the claim as stated fails for
`calculateRecipeMetrics`.  Doubling a 100 g sucrose recipe changes SP from
100 to 200 (and PAC likewise), so SP is not left unchanged by scaling. -/
theorem calculateRecipeMetrics_scale_sp_counterexample :
    ¬ ((calculateRecipeMetrics (scaleRecipe 2 [("Sucrose", 100)]) 0).sp
        = (calculateRecipeMetrics [("Sucrose", 100)] 0).sp) := by
  have hs : scaleRecipe 2 [("Sucrose", (100 : ℚ))] = [("Sucrose", 200)] := by
    norm_num [scaleRecipe]
  rw [hs]
  norm_num [calculateRecipeMetrics, totalSpAcc, knownRows,
    List.filterMap_cons, getIngredientByName_Sucrose, spContribOf,
    sugarContentOf, jsOr, ingSucrose]

theorem totalWeightAcc_eq_filter (recipe : List (String × ℚ)) :
    totalWeightAcc recipe
      = ((recipe.filter (fun p => decide (0 < p.2)
          && (getIngredientByName p.1).isSome)).map (fun p => p.2)).sum := by
  induction recipe with
  | nil => rfl
  | cons p l ih =>
      simp only [totalWeightAcc, knownRows, List.filterMap_cons] at ih ⊢
      by_cases h : p.2 ≤ 0
      · have h' : ¬ 0 < p.2 := not_lt.2 h
        simp [List.filter_cons, h, h', ih]
      · cases hl : getIngredientByName p.1 with
        | none => simp [List.filter_cons, h, hl, not_le.1 h, ih]
        | some i => simp [List.filter_cons, h, hl, not_le.1 h, ih]

/-- C4 (amended): mass conservation.  For `calcMetrics` the returned total
is always the sum of all line masses minus the evaporated water mass.  For
`calculateRecipeMetrics` the returned total is the sum of the masses of the
counted lines only — positive mass and a recognized catalog name — minus
the evaporated water; lines with unknown names or non-positive mass are
excluded from the total. -/
theorem metrics_mass_conservation (rows : List Row) (opts : CalcOptions)
    (recipe : List (String × ℚ)) (e : ℚ) :
    (calcMetrics rows opts).total_g
      = (rows.map (fun r => r.grams)).sum
        - waterG rows * (clampEvap opts / 100) ∧
    (calculateRecipeMetrics recipe e).total_weight
      = ((recipe.filter (fun p => decide (0 < p.2)
          && (getIngredientByName p.1).isSome)).map (fun p => p.2)).sum
        - (if e > 0 then totalWaterAcc recipe * (e / 100) else 0) := by
  constructor
  · simp only [calcMetrics, totalAfterEvapG, waterEvapG, totalG]
    ring
  · simp only [calculateRecipeMetrics]
    rw [totalWeightAcc_eq_filter]

theorem getIngredientByName_MysteryGoo :
    getIngredientByName "Mystery Goo" = none := rfl

/-- C4 counterexample: a one-line recipe whose ingredient name is unknown.
The claim says the total should be `50 − 0 = 50`, but
`calculateRecipeMetrics` drops the line from the total entirely. -/
theorem calculateRecipeMetrics_mass_counterexample :
    ¬ ((calculateRecipeMetrics [("Mystery Goo", 50)] 0).total_weight = 50) := by
  norm_num [calculateRecipeMetrics, totalWeightAcc, totalWaterAcc, knownRows,
    List.filterMap_cons, getIngredientByName_MysteryGoo]

/-- JS `a.includes(b)`: `b` occurs as a substring of `a`. -/
def strIncludes (a b : String) : Bool :=
  a.data.tails.any (fun t => b.data.isPrefixOf t)

/-- Replace each maximal whitespace run by a single underscore
(JS `replace(/\s+/g, "_")`). -/
def wsToUnderscore : Bool → List Char → List Char
  | _, [] => []
  | inWs, c :: rest =>
      if c.isWhitespace then
        if inWs then wsToUnderscore true rest
        else Char.ofNat 95 :: wsToUnderscore true rest
      else c :: wsToUnderscore false rest

/-- String-level wrapper for `wsToUnderscore`. -/
def jsWsToUnderscore (s : String) : String :=
  String.mk (wsToUnderscore false s.data)

/-- The fuzzy catalog match attempted by `convertLegacyRecipeToRows`
(`src/unnamed/part_007`) when the exact name lookup fails. -/
def fuzzyMatchIngredient (name : String) : Option IngredientData :=
  DEFAULT_INGREDIENTS.find? (fun i =>
    strIncludes (strToLower i.name) (strToLower name)
    || strIncludes (strToLower name) (strToLower i.name)
    || (strToLower i.id == jsWsToUnderscore (strToLower name)))

/-- The milk-like default ingredient substituted by
`convertLegacyRecipeToRows` when no catalog entry matches. -/
def defaultIngredientFor (name : String) : IngredientData :=
  { id := jsWsToUnderscore (strToLower name), name := name,
    category := .other, water_pct := 88, fat_pct := 3, sugars_pct := some 5,
    other_solids_pct := some 0, sp_coeff := some 0.5, pac_coeff := some 50 }

/-- Embeds `convertLegacyRecipeToRows` from `src/unnamed/part_007`: exact name
match, then fuzzy match, then a default milk-like ingredient; the line's
mass is kept in every case. -/
def convertLegacyRecipeToRows (recipe : List (String × ℚ)) : List Row :=
  recipe.map (fun p =>
    match getIngredientByName p.1 with
    | some i => { ing := i, grams := p.2 }
    | none =>
        match fuzzyMatchIngredient p.1 with
        | some i => { ing := i, grams := p.2 }
        | none => { ing := defaultIngredientFor p.1, grams := p.2 })

theorem convertLegacy_mass_preserved (recipe : List (String × ℚ)) :
    totalG (convertLegacyRecipeToRows recipe)
      = (recipe.map (fun p => p.2)).sum := by
  induction recipe with
  | nil => rfl
  | cons p l ih =>
      simp only [convertLegacyRecipeToRows, List.map_cons, totalG,
        List.sum_cons, List.map_map] at ih ⊢
      cases hl : getIngredientByName p.1 with
      | some i => simp [hl, ih]
      | none =>
          cases hf : fuzzyMatchIngredient p.1 with
          | some i => simp [hl, hf, ih]
          | none => simp [hl, hf, ih]

theorem knownRows_cons_unknown {n : String} {a : ℚ}
    (ha : 0 < a) (hn : getIngredientByName n = none)
    (recipe : List (String × ℚ)) :
    knownRows ((n, a) :: recipe) = knownRows recipe := by
  simp [knownRows, List.filterMap_cons, not_le.2 ha, hn]

theorem unknownWarnings_cons_unknown {n : String} {a : ℚ}
    (ha : 0 < a) (hn : getIngredientByName n = none)
    (recipe : List (String × ℚ)) :
    unknownWarnings ((n, a) :: recipe)
      = warningString n :: unknownWarnings recipe := by
  simp [unknownWarnings, List.filterMap_cons, not_le.2 ha, hn]

/-- C9 (amended): a line with an unknown ingredient name and positive mass
is non-fatal — `calculateRecipeMetrics` pushes the documented warning and
proceeds — but the line is skipped entirely: no default composition is
substituted and its mass does not participate in any total (the result is
exactly that of the recipe without the line, plus the warning).  A default
milk-like composition with the mass kept is substituted only on the legacy
conversion path `convertLegacyRecipeToRows`, where every line's mass
participates in the converted total. -/
theorem calculateRecipeMetrics_unknown_line (recipe : List (String × ℚ))
    (n : String) (a e : ℚ) (ha : 0 < a)
    (hn : getIngredientByName n = none) :
    calculateRecipeMetrics ((n, a) :: recipe) e
      = { calculateRecipeMetrics recipe e with
          messages := warningString n
            :: (calculateRecipeMetrics recipe e).messages } ∧
    ∀ r : List (String × ℚ),
      totalG (convertLegacyRecipeToRows r) = (r.map (fun p => p.2)).sum := by
  refine ⟨?_, convertLegacy_mass_preserved⟩
  simp only [calculateRecipeMetrics, totalWaterAcc, totalWeightAcc,
    totalSugarsAcc, totalFatAcc, totalMsnfAcc, totalOtherAcc, totalSpAcc,
    totalPacAcc, totalCostAcc, knownRows_cons_unknown ha hn recipe,
    unknownWarnings_cons_unknown ha hn recipe, List.cons_append]

theorem getIngredientByName_ImaginaryPaste :
    getIngredientByName "Imaginary Paste" = none := rfl

/-- C9 witness: concrete instance of the amended unknown-ingredient
behaviour on a sucrose recipe extended with an unknown 40 g line. -/
theorem calculateRecipeMetrics_unknown_line_witness :
    calculateRecipeMetrics [("Imaginary Paste", 40), ("Sucrose", 100)] 0
      = { calculateRecipeMetrics [("Sucrose", 100)] 0 with
          messages := warningString "Imaginary Paste"
            :: (calculateRecipeMetrics [("Sucrose", 100)] 0).messages } ∧
    ∀ r : List (String × ℚ),
      totalG (convertLegacyRecipeToRows r) = (r.map (fun p => p.2)).sum :=
  calculateRecipeMetrics_unknown_line [("Sucrose", 100)] "Imaginary Paste"
    40 0 (by norm_num) getIngredientByName_ImaginaryPaste

theorem getIngredientByName_Unobtainium :
    getIngredientByName "Unobtainium" = none := rfl

/-- C9 counterexample: for an unknown ingredient line of mass 100 the claim
asserts the mass still participates in the totals, but the returned total
weight is 0, not 100. -/
theorem calculateRecipeMetrics_unknown_counterexample :
    ¬ ((calculateRecipeMetrics [("Unobtainium", 100)] 0).total_weight
        = 100) := by
  norm_num [calculateRecipeMetrics, totalWeightAcc, totalWaterAcc, knownRows,
    List.filterMap_cons, getIngredientByName_Unobtainium]

/-- One row of the fixed sugar-coefficient table `coeff` in
`src/src/lib/calc.ts` (lines 116-123). -/
structure SugarCoeff where
  sp : ℚ
  pac : ℚ
deriving DecidableEq

/-- Table entry `sucrose`. -/
def coeffSucrose : SugarCoeff := { sp := 1.00, pac := 1.00 }

/-- Table entry `dextrose`. -/
def coeffDextrose : SugarCoeff := { sp := 0.74, pac := 1.90 }

/-- Table entry `fructose`. -/
def coeffFructose : SugarCoeff := { sp := 1.73, pac := 1.90 }

/-- Table entry `invert`. -/
def coeffInvert : SugarCoeff := { sp := 1.25, pac := 1.90 }

/-- Table entry `lactose`. -/
def coeffLactose : SugarCoeff := { sp := 0.16, pac := 1.00 }

/-- Table entry `glucose_de60`. -/
def coeffGlucoseDE60 : SugarCoeff := { sp := 0.50, pac := 1.18 }

/-- The coefficient resolution of the table-based calculator: exact table
key on the lowercased id, then id-substring fallbacks, defaulting to
sucrose. -/
def resolveCoeff (idRaw : String) : SugarCoeff :=
  let id := strToLower idRaw
  if id == "sucrose" then coeffSucrose
  else if id == "dextrose" then coeffDextrose
  else if id == "fructose" then coeffFructose
  else if id == "invert" then coeffInvert
  else if id == "lactose" then coeffLactose
  else if id == "glucose_de60" then coeffGlucoseDE60
  else if strIncludes id "dextrose" || strIncludes id "glucose" then
    coeffDextrose
  else if strIncludes id "fructose" then coeffFructose
  else if strIncludes id "invert" then coeffInvert
  else if strIncludes id "lactose" then coeffLactose
  else if strIncludes id "glucose_de60" then coeffGlucoseDE60
  else coeffSucrose

/-- Sum of the declared split components (`?? 0` on each). -/
def splitSum (s : SugarSplit) : ℚ :=
  s.glucose.getD 0 + s.fructose.getD 0 + s.sucrose.getD 0

/-- The `norm` denominator of the fruit branch:
`(glucose + fructose + sucrose) || 100`. -/
def splitNorm (s : SugarSplit) : ℚ :=
  if splitSum s = 0 then 100 else splitSum s

/-- Per-row SP contribution of the table-based calculator
(`src/src/lib/calc.ts` lines 126-156): fruit ingredients with a declared
`sugar_split` use dextrose/fructose/sucrose reference coefficients on the
normalized split; all other rows use `resolveCoeff` on the id. -/
def spTermSplit (total : ℚ) (r : Row) : ℚ :=
  if sugarOfRow r ≤ 0 ∨ total ≤ 0 then 0
  else
    match r.ing.category, r.ing.sugar_split with
    | Category.fruit, some s =>
        sugarOfRow r * (s.glucose.getD 0 / splitNorm s) / total
            * coeffDextrose.sp * 100
          + sugarOfRow r * (s.fructose.getD 0 / splitNorm s) / total
            * coeffFructose.sp * 100
          + sugarOfRow r * (s.sucrose.getD 0 / splitNorm s) / total
            * coeffSucrose.sp * 100
    | _, _ => sugarOfRow r / total * (resolveCoeff r.ing.id).sp * 100

/-- Per-row PAC contribution of the table-based calculator. -/
def pacTermSplit (total : ℚ) (r : Row) : ℚ :=
  if sugarOfRow r ≤ 0 ∨ total ≤ 0 then 0
  else
    match r.ing.category, r.ing.sugar_split with
    | Category.fruit, some s =>
        sugarOfRow r * (s.glucose.getD 0 / splitNorm s) / total
            * coeffDextrose.pac * 100
          + sugarOfRow r * (s.fructose.getD 0 / splitNorm s) / total
            * coeffFructose.pac * 100
          + sugarOfRow r * (s.sucrose.getD 0 / splitNorm s) / total
            * coeffSucrose.pac * 100
    | _, _ => sugarOfRow r / total * (resolveCoeff r.ing.id).pac * 100

/-- The table-based variant of the metrics calculator in
`src/src/lib/calc.ts` (lines 90-169): same accumulators as `calcMetrics`,
with SP/PAC resolved through the fixed coefficient table and the fruit
`sugar_split` branch. -/
def calcMetricsSplit (rows : List Row) (opts : CalcOptions) : Metrics :=
  let total := totalAfterEvapG rows opts
  { total_g := total
    water_g := waterEvapG rows opts
    sugars_g := sugarsG rows
    fat_g := fatG rows
    msnf_g := msnfG rows
    other_g := otherG rows
    water_pct := pctOf total (waterEvapG rows opts)
    sugars_pct := pctOf total (sugarsG rows)
    fat_pct := pctOf total (fatG rows)
    msnf_pct := pctOf total (msnfG rows)
    other_pct := pctOf total (otherG rows)
    ts_add_g := sugarsG rows + fatG rows + msnfG rows + otherG rows
    ts_mass_g := total - waterEvapG rows opts
    ts_add_pct := pctOf total (sugarsG rows + fatG rows + msnfG rows + otherG rows)
    ts_mass_pct := pctOf total (total - waterEvapG rows opts)
    sp := (rows.map (spTermSplit total)).sum
    pac := (rows.map (pacTermSplit total)).sum }

/-- The split with each component multiplied by `100 / splitSum s`, i.e.
renormalized to sum to 100 (this is the spec's renormalized split of C8). -/
def renormSplit (s : SugarSplit) : SugarSplit :=
  { glucose := s.glucose.map (fun x => x * (100 / splitSum s)),
    fructose := s.fructose.map (fun x => x * (100 / splitSum s)),
    sucrose := s.sucrose.map (fun x => x * (100 / splitSum s)) }

theorem option_map_mul_getD (o : Option ℚ) (k : ℚ) :
    (o.map (fun x => x * k)).getD 0 = o.getD 0 * k := by
  cases o with
  | none => simp
  | some x => simp

/-- Replace an ingredient's `sugar_split`. -/
def setSplit (i : IngredientData) (s : SugarSplit) : IngredientData :=
  { i with sugar_split := some s }

theorem splitNorm_renorm {s : SugarSplit} (hS : 0 < splitSum s) :
    splitNorm (renormSplit s) = 100 := by
  have hne : splitSum s ≠ 0 := ne_of_gt hS
  have hsum : splitSum (renormSplit s) = 100 := by
    have hfac : splitSum (renormSplit s) = 100 / splitSum s * splitSum s := by
      simp only [splitSum, renormSplit, option_map_mul_getD]
      ring
    rw [hfac, div_mul_cancel₀ _ hne]
  simp [splitNorm, hsum]

theorem splitNorm_of_pos {s : SugarSplit} (hS : 0 < splitSum s) :
    splitNorm s = splitSum s := by
  simp [splitNorm, ne_of_gt hS]

theorem renormSplit_glucose_getD (s : SugarSplit) :
    (renormSplit s).glucose.getD 0
      = s.glucose.getD 0 * (100 / splitSum s) := by
  simp [renormSplit, option_map_mul_getD]

theorem renormSplit_fructose_getD (s : SugarSplit) :
    (renormSplit s).fructose.getD 0
      = s.fructose.getD 0 * (100 / splitSum s) := by
  simp [renormSplit, option_map_mul_getD]

theorem renormSplit_sucrose_getD (s : SugarSplit) :
    (renormSplit s).sucrose.getD 0
      = s.sucrose.getD 0 * (100 / splitSum s) := by
  simp [renormSplit, option_map_mul_getD]

theorem setSplit_category (i : IngredientData) (s : SugarSplit) :
    (setSplit i s).category = i.category := rfl

theorem setSplit_sugar_split (i : IngredientData) (s : SugarSplit) :
    (setSplit i s).sugar_split = some s := rfl

theorem spTermSplit_renorm {s : SugarSplit} (hS : 0 < splitSum s)
    (T m : ℚ) (ing : IngredientData) (hcat : ing.category = Category.fruit)
    (hsplit : ing.sugar_split = some s) :
    spTermSplit T { ing := setSplit ing (renormSplit s), grams := m }
      = spTermSplit T { ing := ing, grams := m } := by
  have hsug : sugarOfRow ({ ing := setSplit ing (renormSplit s), grams := m }
      : Row) = sugarOfRow ({ ing := ing, grams := m } : Row) := rfl
  simp only [spTermSplit, hsug, setSplit_category, setSplit_sugar_split,
    hcat, hsplit]
  split
  · rfl
  · simp only [splitNorm_renorm hS, renormSplit_glucose_getD,
      renormSplit_fructose_getD, renormSplit_sucrose_getD,
      splitNorm_of_pos hS]
    ring

theorem pacTermSplit_renorm {s : SugarSplit} (hS : 0 < splitSum s)
    (T m : ℚ) (ing : IngredientData) (hcat : ing.category = Category.fruit)
    (hsplit : ing.sugar_split = some s) :
    pacTermSplit T { ing := setSplit ing (renormSplit s), grams := m }
      = pacTermSplit T { ing := ing, grams := m } := by
  have hsug : sugarOfRow ({ ing := setSplit ing (renormSplit s), grams := m }
      : Row) = sugarOfRow ({ ing := ing, grams := m } : Row) := rfl
  simp only [pacTermSplit, hsug, setSplit_category, setSplit_sugar_split,
    hcat, hsplit]
  split
  · rfl
  · simp only [splitNorm_renorm hS, renormSplit_glucose_getD,
      renormSplit_fructose_getD, renormSplit_sucrose_getD,
      splitNorm_of_pos hS]
    ring

/-- C8: renormalizing a fruit ingredient's `sugar_split` (sum `S` with
`S > 0` and `S ≠ 100`) so that each component is multiplied by `100 / S`
leaves the table-based metrics — in particular SP and PAC — exactly
unchanged. -/
theorem calcMetricsSplit_renormalize (pre post : List Row)
    (ing : IngredientData) (m : ℚ) (s : SugarSplit) (opts : CalcOptions)
    (hcat : ing.category = Category.fruit)
    (hsplit : ing.sugar_split = some s)
    (hS : 0 < splitSum s) (_hS100 : splitSum s ≠ 100) :
    calcMetricsSplit
        (pre ++ { ing := setSplit ing (renormSplit s), grams := m } :: post)
        opts
      = calcMetricsSplit (pre ++ { ing := ing, grams := m } :: post) opts := by
  set rows' := pre ++ { ing := setSplit ing (renormSplit s), grams := m }
    :: post with hrows'
  set rows := pre ++ { ing := ing, grams := m } :: post with hrows
  have hTG : totalG rows' = totalG rows := by
    simp [hrows', hrows, totalG, List.map_append, List.sum_append]
  have hWG : waterG rows' = waterG rows := by
    simp [hrows', hrows, waterG, List.map_append, List.sum_append, setSplit]
  have hSG : sugarsG rows' = sugarsG rows := by
    simp [hrows', hrows, sugarsG, sugarOfRow, List.map_append,
      List.sum_append, setSplit]
  have hFG : fatG rows' = fatG rows := by
    simp [hrows', hrows, fatG, List.map_append, List.sum_append, setSplit]
  have hMG : msnfG rows' = msnfG rows := by
    simp [hrows', hrows, msnfG, List.map_append, List.sum_append, setSplit]
  have hOG : otherG rows' = otherG rows := by
    simp [hrows', hrows, otherG, List.map_append, List.sum_append, setSplit]
  have hT : totalAfterEvapG rows' opts = totalAfterEvapG rows opts := by
    simp only [totalAfterEvapG, waterEvapG, hTG, hWG]
  have hsp : (rows'.map (spTermSplit (totalAfterEvapG rows opts))).sum
      = (rows.map (spTermSplit (totalAfterEvapG rows opts))).sum := by
    rw [hrows', hrows]
    simp only [List.map_append, List.sum_append, List.map_cons,
      List.sum_cons]
    rw [spTermSplit_renorm hS _ m ing hcat hsplit]
  have hpac : (rows'.map (pacTermSplit (totalAfterEvapG rows opts))).sum
      = (rows.map (pacTermSplit (totalAfterEvapG rows opts))).sum := by
    rw [hrows', hrows]
    simp only [List.map_append, List.sum_append, List.map_cons,
      List.sum_cons]
    rw [pacTermSplit_renorm hS _ m ing hcat hsplit]
  simp only [calcMetricsSplit, waterEvapG]
  rw [hT, hWG, hSG, hFG, hMG, hOG, hsp, hpac]

/-- A declared fruit split summing to 50 (not 100), used to witness C8. -/
def mangoTestSplit : SugarSplit :=
  { glucose := some 20, fructose := some 30, sucrose := some 0 }

/-- A fruit ingredient carrying `mangoTestSplit`, used to witness C8. -/
def ingMangoTest : IngredientData :=
  { id := "mango", name := "Mango Pulp", category := .fruit,
    water_pct := 82, fat_pct := 0, sugars_pct := some 14,
    sugar_split := some mangoTestSplit }

/-- C8 witness: renormalizing the mango split (20/30/0, sum 50) leaves the
metrics of an 800 g milk + 200 g mango recipe unchanged. -/
theorem calcMetricsSplit_renormalize_witness :
    calcMetricsSplit
        [ { ing := ingMilk3, grams := 800 },
          { ing := setSplit ingMangoTest (renormSplit mangoTestSplit),
            grams := 200 } ] {}
      = calcMetricsSplit
          [ { ing := ingMilk3, grams := 800 },
            { ing := ingMangoTest, grams := 200 } ] {} :=
  calcMetricsSplit_renormalize [ { ing := ingMilk3, grams := 800 } ] []
    ingMangoTest 200 mangoTestSplit {} rfl rfl
    (by norm_num [splitSum, mangoTestSplit])
    (by norm_num [splitSum, mangoTestSplit])

/-- The four product archetypes of `classifyRecipe`. -/
inductive Archetype
  | white_base
  | finished_gelato
  | fruit_gelato
  | sorbet
deriving DecidableEq

/-- Embeds `calculateDistance` from `src/lib/calc.ts`: 6-dimensional weighted
squared-Euclidean distance, weights `[1, 1, 1, 1, 0.5, 0.5]` over
total-solids, sugars, fat, MSNF, SP, PAC. -/
def calculateDistance (ts sugars fat msnf sp pac t1 t2 t3 t4 t5 t6 : ℚ) : ℚ :=
  1 * (ts - t1) ^ 2 + 1 * (sugars - t2) ^ 2 + 1 * (fat - t3) ^ 2
    + 1 * (msnf - t4) ^ 2 + 0.5 * (sp - t5) ^ 2 + 0.5 * (pac - t6) ^ 2

/-- The distance of a metrics record to each archetype's inline reference
centroid, from `classifyRecipe`. -/
def distTo (m : RecipeMetrics) : Archetype → ℚ
  | .white_base => calculateDistance m.ts_additive m.sugars m.fat m.msnf
      m.sp m.pac 34.5 17.5 5 9.5 17 25
  | .finished_gelato => calculateDistance m.ts_additive m.sugars m.fat m.msnf
      m.sp m.pac 41.5 20 11.5 9.5 17 25
  | .fruit_gelato => calculateDistance m.ts_additive m.sugars m.fat m.msnf
      m.sp m.pac 37 23 6.5 5 22 27
  | .sorbet => calculateDistance m.ts_additive m.sugars m.fat m.msnf
      m.sp m.pac 37 28.5 0 0 24 30.5

/-- Embeds `classifyRecipe` from `src/lib/calc.ts`: reduce over the archetype keys
in insertion order, keeping the earlier key only when its distance is
strictly smaller. -/
def classifyRecipe (m : RecipeMetrics) : Archetype :=
  [Archetype.finished_gelato, Archetype.fruit_gelato,
    Archetype.sorbet].foldl
    (fun a b => if distTo m a < distTo m b then a else b) Archetype.white_base

/-- C6: `classifyRecipe` is total and deterministic, always returns one of
the four archetypes, and the returned archetype has minimal weighted
squared-Euclidean distance to its reference centroid among all four. -/
theorem classifyRecipe_spec (m : RecipeMetrics) :
    (classifyRecipe m = Archetype.white_base
      ∨ classifyRecipe m = Archetype.finished_gelato
      ∨ classifyRecipe m = Archetype.fruit_gelato
      ∨ classifyRecipe m = Archetype.sorbet)
    ∧ (∀ a : Archetype, distTo m (classifyRecipe m) ≤ distTo m a)
    ∧ ∀ m' : RecipeMetrics, m' = m → classifyRecipe m' = classifyRecipe m := by
  refine ⟨?_, ?_, ?_⟩
  · cases h : classifyRecipe m
    · exact Or.inl rfl
    · exact Or.inr (Or.inl rfl)
    · exact Or.inr (Or.inr (Or.inl rfl))
    · exact Or.inr (Or.inr (Or.inr rfl))
  · intro a
    simp only [classifyRecipe, List.foldl]
    split_ifs with h1 h2 h3 h4 h5 h6 h7 <;>
      simp only [not_lt] at * <;> cases a <;> linarith
  · intro m' hm
    rw [hm]

/-- Paste category from `src/types/paste` (`src/unnamed/part_007`). -/
inductive PasteCategory
  | dairy
  | fruit
  | confection
  | spice
  | nut
  | mixed
deriving DecidableEq

/-- Embeds `LabSpecs` from `src/types/paste`. -/
structure LabSpecs where
  brix_deg : Option ℚ := none
  pH : Option ℚ := none
  aw_est : Option ℚ := none
deriving DecidableEq

/-- Embeds `PasteComponent` from `src/types/paste`. -/
structure PasteComponent where
  id : String
  name : String
  grams : ℚ
  water_pct : ℚ
  sugars_pct : Option ℚ := none
  fat_pct : ℚ
  msnf_pct : Option ℚ := none
  other_solids_pct : Option ℚ := none
  sugar_split : Option SugarSplit := none
deriving DecidableEq

/-- Allergen flags of `PasteFormula`. -/
structure Allergens where
  milk : Option Bool := none
  nuts : Option Bool := none
  gluten : Option Bool := none
deriving DecidableEq

/-- Embeds `PasteFormula` from `src/types/paste`. -/
structure PasteFormula where
  id : String
  name : String
  category : PasteCategory
  components : List PasteComponent := []
  batch_size_g : ℚ := 0
  water_pct : ℚ
  sugars_pct : Option ℚ := none
  fat_pct : ℚ
  msnf_pct : Option ℚ := none
  other_solids_pct : Option ℚ := none
  sugar_split : Option SugarSplit := none
  acidity_citric_pct : Option ℚ := none
  allergens : Option Allergens := none
  lab : Option LabSpecs := none
  cost_per_kg : Option ℚ := none
deriving DecidableEq

/-- Preservation method tags. -/
inductive PreservationMethod
  | retort
  | hot_fill
  | frozen
  | freeze_dry
deriving DecidableEq

/-- Storage class of a recommendation. -/
inductive Storage
  | ambient
  | chilled
  | frozen
deriving DecidableEq

/-- Qualitative impact level. -/
inductive Level
  | low
  | medium
  | high
deriving DecidableEq

/-- Numeric targets attached to a recommendation. -/
structure AdviceTargets where
  brix_deg : Option ℚ := none
  pH : Option ℚ := none
  aw_max : Option ℚ := none
  particle_mm_max : Option ℚ := none
deriving DecidableEq

/-- Qualitative gelato-impact descriptors. -/
structure GelatoImpact where
  aroma_retention : Level
  color_browning : Level
  notes : List String
deriving DecidableEq

/-- Embeds `PreservationAdvice` from `src/types/paste`. -/
structure PreservationAdvice where
  method : PreservationMethod
  confidence : ℚ
  why : List String
  targets : AdviceTargets
  packaging : List String
  storage : Storage
  shelf_life_hint : String
  impact_on_gelato : GelatoImpact
deriving DecidableEq

/-- Caller preferences of `PasteAdvisorService.advise`. -/
structure Prefs where
  ambientPreferred : Option Bool := none
  cleanLabel : Option Bool := none
  particulate_mm : Option ℚ := none
deriving DecidableEq

/-- The `hot_fill` recommendation pushed by `advise` (requires a known pH
`p`). -/
def hotFillAdviceOf (p : ℚ) (brix : Option ℚ) (particulate : ℚ) :
    PreservationAdvice :=
  { method := .hot_fill
    confidence := 0.7
    why := [ "High-acid & high °Bx; typical jam-like hot-fill feasible",
      "No dairy components",
      if particulate > 5 then "Particulates borderline; consider size reduction"
      else "Particulates ok" ]
    targets :=
      { brix_deg := some (max 60 (brix.getD 60)),
        pH := some (min 3.8 p), aw_max := some 0.85,
        particle_mm_max := some 5 }
    packaging := [ "Glass jar + lug cap (hot-fill)",
      "HDPE bottle (heat resistant)" ]
    storage := .ambient
    shelf_life_hint :=
      "Ambient shelf-life typical for hot-filled jams; verify with process authority"
    impact_on_gelato :=
      { aroma_retention := .medium,
        color_browning := .medium,
        notes := ["Balanced solids; adds water & sugars to base"] } }

/-- The `retort` recommendation pushed by `advise`. -/
def retortAdviceOf (dairy : Bool) (pH brix : Option ℚ) : PreservationAdvice :=
  { method := .retort
    confidence := 0.7
    why := [ if dairy then "Dairy present; ambient requires commercial sterility"
      else "Low-acid (>4.6) for ambient",
      "Ambient logistics requested" ]
    targets :=
      { pH := pH, brix_deg := brix, aw_max := some 0.97,
        particle_mm_max := some 10 }
    packaging := [ "Retort pouch", "Cans", "Glass jar (retortable)" ]
    storage := .ambient
    shelf_life_hint :=
      "Ambient; exact lethality to be validated by process authority"
    impact_on_gelato :=
      { aroma_retention := .low, color_browning := .high,
        notes := ["Potential Maillard/caramel notes; adjust color/flavor"] } }

/-- The unconditional `frozen` recommendation pushed by `advise`. -/
def frozenAdviceOf (brix pH : Option ℚ) : PreservationAdvice :=
  { method := .frozen
    confidence := 0.8
    why := [ "Minimal thermal impact; best flavor retention",
      "Requires frozen logistics" ]
    targets := { brix_deg := brix, pH := pH }
    packaging := [ "Foodgrade pails", "Vacuum pouch + blast freeze" ]
    storage := .frozen
    shelf_life_hint := "Frozen; quality depends on ice crystal control"
    impact_on_gelato :=
      { aroma_retention := .high, color_browning := .low,
        notes := ["Adds water solids; plan PAC/SP balance"] } }

/-- The unconditional `freeze_dry` recommendation pushed by `advise`. -/
def freezeDryAdviceOf (brix pH : Option ℚ) : PreservationAdvice :=
  { method := .freeze_dry
    confidence := 0.8
    why := [ "Zero added water to base", "Great for delicate aromatics" ]
    targets := { brix_deg := brix, pH := pH, aw_max := some 0.3 }
    packaging := [ "FD jar with desiccant", "FOIL pouch + nitrogen" ]
    storage := .ambient
    shelf_life_hint := "Ambient; protect from moisture uptake"
    impact_on_gelato :=
      { aroma_retention := .high, color_browning := .low,
        notes :=
          ["Boosts TS without PAC; may need sucrose/dextrose adjustment"] } }

/-- Embeds `PasteAdvisorService.advise` from `src/services/pasteAdvisorService.ts`:
rule-based recommendations (hot-fill, retort conditional; frozen and
freeze-dry unconditional), sorted by descending confidence.  The JS sort
comparator `(a, b) => b.confidence - a.confidence` is modelled by a stable
merge sort under `b.confidence ≤ a.confidence`. -/
def advise (paste : PasteFormula) (prefs : Option Prefs) :
    List PreservationAdvice :=
  let pH := paste.lab.bind LabSpecs.pH
  let brix := paste.lab.bind LabSpecs.brix_deg
  let dairy : Bool := paste.category == PasteCategory.dairy
    || decide (paste.msnf_pct.getD 0 > 1)
  let particulate := (prefs.bind Prefs.particulate_mm).getD 2
  let hotfill : List PreservationAdvice :=
    match pH with
    | some p =>
        if !dairy && decide (p ≤ 4.6) && decide (brix.getD 0 ≥ 55)
            && decide (particulate ≤ 5)
        then [hotFillAdviceOf p brix particulate] else []
    | none => []
  let lowAcid : Bool :=
    match pH with
    | some p => decide (p > 4.6)
    | none => false
  let retort : List PreservationAdvice :=
    if (dairy || lowAcid) && (prefs.bind Prefs.ambientPreferred).getD false
    then [retortAdviceOf dairy pH brix] else []
  (hotfill ++ retort ++ [frozenAdviceOf brix pH, freezeDryAdviceOf brix pH]
    ).mergeSort (fun a b => decide (b.confidence ≤ a.confidence))

/-- C7: for every paste and preference setting, `advise` contains a
`frozen` and a `freeze_dry` recommendation, each with confidence 0.8, and
the returned list is sorted in non-increasing order of confidence. -/
theorem advise_floor_and_sorted (paste : PasteFormula) (prefs : Option Prefs) :
    (∃ a ∈ advise paste prefs,
      a.method = PreservationMethod.frozen ∧ a.confidence = 0.8) ∧
    (∃ a ∈ advise paste prefs,
      a.method = PreservationMethod.freeze_dry ∧ a.confidence = 0.8) ∧
    List.Pairwise (fun a b : PreservationAdvice =>
      b.confidence ≤ a.confidence) (advise paste prefs) := by
  have htrans : ∀ a b c : PreservationAdvice,
      decide (b.confidence ≤ a.confidence) = true →
      decide (c.confidence ≤ b.confidence) = true →
      decide (c.confidence ≤ a.confidence) = true := by
    intro a b c hab hbc
    simp only [decide_eq_true_eq] at *
    exact le_trans hbc hab
  have htotal : ∀ a b : PreservationAdvice,
      (decide (b.confidence ≤ a.confidence)
        || decide (a.confidence ≤ b.confidence)) = true := by
    intro a b
    rcases le_total a.confidence b.confidence with h | h <;> simp [h]
  refine ⟨?_, ?_, ?_⟩
  · refine ⟨frozenAdviceOf (paste.lab.bind LabSpecs.brix_deg)
      (paste.lab.bind LabSpecs.pH), ?_, rfl, rfl⟩
    simp only [advise]
    rw [List.mem_mergeSort]
    simp
  · refine ⟨freezeDryAdviceOf (paste.lab.bind LabSpecs.brix_deg)
      (paste.lab.bind LabSpecs.pH), ?_, rfl, rfl⟩
    simp only [advise]
    rw [List.mem_mergeSort]
    simp
  · simp only [advise]
    exact (List.sorted_mergeSort htrans htotal _).imp
      (fun h => of_decide_eq_true h)

/-- C10: when the paste's lab measurements carry no pH value, `advise`
never returns a `hot_fill` recommendation. -/
theorem advise_no_hot_fill_without_pH (paste : PasteFormula)
    (prefs : Option Prefs) (h : paste.lab.bind LabSpecs.pH = none) :
    ∀ a ∈ advise paste prefs, a.method ≠ PreservationMethod.hot_fill := by
  intro a ha
  simp only [advise, h] at ha
  rw [List.mem_mergeSort] at ha
  simp only [List.nil_append, List.mem_append, List.mem_cons,
    List.mem_singleton, List.not_mem_nil, or_false, false_or] at ha
  rcases ha with ha | ha | ha
  · split at ha
    · simp only [List.mem_singleton] at ha
      rw [ha]
      intro hm
      exact absurd hm (by simp [retortAdviceOf])
    · exact absurd ha (List.not_mem_nil a)
  · rw [ha]
    intro hm
    exact absurd hm (by simp [frozenAdviceOf])
  · rw [ha]
    intro hm
    exact absurd hm (by simp [freezeDryAdviceOf])

/-- Paste without lab measurements, used to witness C10. -/
def samplePasteC10 : PasteFormula :=
  { id := "p1", name := "Test Paste", category := .fruit,
    water_pct := 80, fat_pct := 0 }

/-- C10 witness: the head `frozen` recommendation for a paste without pH is
not `hot_fill`, obtained by applying the theorem at a concrete paste. -/
theorem advise_no_hot_fill_without_pH_witness :
    (frozenAdviceOf none none).method ≠ PreservationMethod.hot_fill :=
  advise_no_hot_fill_without_pH samplePasteC10 none rfl
    (frozenAdviceOf none none)
    (by
      simp only [advise, samplePasteC10]
      rw [List.mem_mergeSort]
      simp)

namespace FE

/-- Ingredient row of the `FlavourEngine` component's inline table
(`src/components/FlavourEngine.tsx` lines 32-40). -/
structure Ingredient where
  name : String
  pac : ℚ
  pod : ℚ
  afp : ℚ
  fat : ℚ
  msnf : ℚ
  cost : ℚ
  confidence : String
deriving DecidableEq

/-- Table entry `Heavy Cream`. -/
def heavyCream : Ingredient :=
  { name := "Heavy Cream", pac := 2.8, pod := 0.2, afp := 0.1, fat := 35,
    msnf := 5.5, cost := 4.5, confidence := "high" }

/-- Table entry `Whole Milk`. -/
def wholeMilk : Ingredient :=
  { name := "Whole Milk", pac := 2.7, pod := 0.3, afp := 0.05, fat := 3.5,
    msnf := 8.5, cost := 2.2, confidence := "high" }

/-- Table entry `Sugar`. -/
def sugar : Ingredient :=
  { name := "Sugar", pac := 0, pod := 0, afp := 0, fat := 0,
    msnf := 0, cost := 3.0, confidence := "high" }

/-- Table entry `Egg Yolks`. -/
def eggYolks : Ingredient :=
  { name := "Egg Yolks", pac := 15.7, pod := 0.8, afp := 0.3, fat := 31.9,
    msnf := 1.1, cost := 8.0, confidence := "medium" }

/-- Table entry `Stabilizer`. -/
def stabilizerFE : Ingredient :=
  { name := "Stabilizer", pac := 0, pod := 85, afp := 2.5, fat := 0,
    msnf := 0, cost := 12.0, confidence := "medium" }

/-- Table entry `Vanilla Extract`. -/
def vanillaExtract : Ingredient :=
  { name := "Vanilla Extract", pac := 0, pod := 0, afp := 0, fat := 0,
    msnf := 0, cost := 25.0, confidence := "high" }

/-- Table entry `Cocoa Powder`. -/
def cocoaPowder : Ingredient :=
  { name := "Cocoa Powder", pac := 19.6, pod := 1.2, afp := 0.2,
    fat := 10.8, msnf := 3.4, cost := 15.0, confidence := "medium" }

/-- The component's ingredient table. -/
def ingredients : List Ingredient :=
  [ heavyCream, wholeMilk, sugar, eggYolks, stabilizerFE, vanillaExtract,
    cocoaPowder ]

/-- JS object lookup `recipe[name]` on the insertion-ordered recipe map. -/
def getVal (r : List (String × ℚ)) (k : String) : Option ℚ :=
  (r.find? (fun p => p.1 == k)).map Prod.snd

/-- One `{ min, max }` target band. -/
structure Band where
  min : ℚ
  max : ℚ
deriving DecidableEq

/-- Embeds `RecipeTargets` of the component (fixed state). -/
structure RecipeTargets where
  totalSolids : Band
  fat : Band
  msnf : Band
  pac : Band
  sweetness : Band
deriving DecidableEq

/-- The fixed target bands of the component. -/
def targets : RecipeTargets :=
  { totalSolids := { min := 36, max := 42 }, fat := { min := 14, max := 18 },
    msnf := { min := 9, max := 12 }, pac := { min := 3.2, max := 4.5 },
    sweetness := { min := 14, max := 18 } }

/-- The metrics record computed by the component's local
`calculateRecipeMetrics`. -/
structure Metrics where
  totalSolids : ℚ
  fat : ℚ
  msnf : ℚ
  pac : ℚ
  sweetness : ℚ
  cost : ℚ
  totalWeight : ℚ
deriving DecidableEq

/-- The recipe entries actually accumulated: ingredient found in the table
and amount strictly positive. -/
def countedLines (recipe : List (String × ℚ)) : List (Ingredient × ℚ) :=
  recipe.filterMap (fun p =>
    if 0 < p.2 then
      (ingredients.find? (fun i => i.name == p.1)).map (fun i => (i, p.2))
    else none)

/-- The component's local `calculateRecipeMetrics`
(`src/components/FlavourEngine.tsx` lines 60-98).  `totalWeight` sums every
entry; percentage denominators are unguarded (division by zero is 0 in this
rational embedding, where JS would produce NaN). -/
def calculateRecipeMetrics (recipe : List (String × ℚ)) : Metrics :=
  let totalWeight := (recipe.map Prod.snd).sum
  let found := countedLines recipe
  let totalFat := (found.map (fun q => q.1.fat * q.2 / 100)).sum
  let totalMSNF := (found.map (fun q => q.1.msnf * q.2 / 100)).sum
  let totalPAC := (found.map (fun q => q.1.pac * q.2 / 100)).sum
  let totalCost := (found.map (fun q => q.1.cost * (q.2 / 1000))).sum
  let fatPercentage := totalFat / totalWeight * 100
  let msnfPercentage := totalMSNF / totalWeight * 100
  let pacPercentage := totalPAC / totalWeight * 100
  { totalSolids := fatPercentage + msnfPercentage
    fat := fatPercentage
    msnf := msnfPercentage
    pac := pacPercentage
    sweetness := (getVal recipe "Sugar").getD 0 / totalWeight * 100
    cost := totalCost
    totalWeight := totalWeight }

/-- Per-parameter pass/fail record of `checkTargets`. -/
structure TargetResults where
  totalSolids : Bool
  fat : Bool
  msnf : Bool
  pac : Bool
  sweetness : Bool
deriving DecidableEq

/-- Embeds `checkTargets` of the component. -/
def checkTargets (m : Metrics) : TargetResults :=
  { totalSolids := decide (m.totalSolids ≥ targets.totalSolids.min
      ∧ m.totalSolids ≤ targets.totalSolids.max)
    fat := decide (m.fat ≥ targets.fat.min ∧ m.fat ≤ targets.fat.max)
    msnf := decide (m.msnf ≥ targets.msnf.min ∧ m.msnf ≤ targets.msnf.max)
    pac := decide (m.pac ≥ targets.pac.min ∧ m.pac ≤ targets.pac.max)
    sweetness := decide (m.sweetness ≥ targets.sweetness.min
      ∧ m.sweetness ≤ targets.sweetness.max) }

/-- One optimization suggestion: its display type, message and the recipe
assignments its `action` performs.  The assigned values are computed from
the recipe as captured when the suggestions were generated (React state
closure), matching `updateRecipe(name, String(recipe[name] + delta))`. -/
structure Suggestion where
  stype : String
  message : String
  updates : List (String × ℚ)
deriving DecidableEq

/-- Embeds `Number(String(recipe[k] + c)) || 0`: an absent key yields `NaN`, which
`|| 0` coerces to 0. -/
def jsAdd (r : List (String × ℚ)) (k : String) (c : ℚ) : ℚ :=
  match getVal r k with
  | some v => v + c
  | none => 0

/-- Embeds `generateOptimizationSuggestions`
(`src/components/FlavourEngine.tsx` lines 117-164). -/
def generateOptimizationSuggestions (recipe : List (String × ℚ)) :
    List Suggestion :=
  let m := calculateRecipeMetrics recipe
  let tr := checkTargets m
  (if tr.fat then []
   else if m.fat < targets.fat.min then
     [ { stype := "warning",
         message := "Increase heavy cream by 50-100ml to boost fat content",
         updates := [("Heavy Cream", jsAdd recipe "Heavy Cream" 75)] } ]
   else
     [ { stype := "warning",
         message := "Reduce heavy cream by 50ml and increase milk to lower fat",
         updates := [("Heavy Cream", jsAdd recipe "Heavy Cream" (-50)),
           ("Whole Milk", jsAdd recipe "Whole Milk" 50)] } ])
  ++ (if !tr.msnf && decide (m.msnf < targets.msnf.min) then
      [ { stype := "info",
          message := "Add milk powder or increase milk content for more MSNF",
          updates := [("Whole Milk", jsAdd recipe "Whole Milk" 30)] } ]
      else [])
  ++ (if tr.sweetness then []
      else if m.sweetness < targets.sweetness.min then
        [ { stype := "success",
            message := "Increase sugar by 10-20g for target sweetness",
            updates := [("Sugar", jsAdd recipe "Sugar" 15)] } ]
      else
        [ { stype := "success",
            message := "Reduce sugar by 10-15g to lower sweetness",
            updates := [("Sugar", jsAdd recipe "Sugar" (-12))] } ])

/-- Embeds `setRecipe(prev => ({ ...prev, [k]: v }))`: replace the key's value or
append it. -/
def setVal (r : List (String × ℚ)) (k : String) (v : ℚ) :
    List (String × ℚ) :=
  if (r.find? (fun p => p.1 == k)).isSome then
    r.map (fun p => if p.1 == k then (p.1, v) else p)
  else r ++ [(k, v)]

/-- Embeds `handleAutoOptimize` (`src/components/FlavourEngine.tsx` lines 175-189):
apply every generated suggestion's assignments once, in order. -/
def handleAutoOptimize (recipe : List (String × ℚ)) : List (String × ℚ) :=
  (generateOptimizationSuggestions recipe).foldl
    (fun acc s => s.updates.foldl (fun a u => setVal a u.1 u.2) acc) recipe

end FE

/-- C2 (amended): the auto-optimizer is a single bounded pass, not an
iterated loop: it computes the metrics once, produces at most three
suggestions, each adjusting at most two ingredient masses, and
`handleAutoOptimize` just applies those assignments once — so it always
terminates.  It applies no clamp, and can return a negative mass (see the
counterexample). -/
theorem fe_optimizer_single_pass_bounded (recipe : List (String × ℚ)) :
    (FE.generateOptimizationSuggestions recipe).length ≤ 3 ∧
    (∀ s ∈ FE.generateOptimizationSuggestions recipe,
      s.updates.length ≤ 2) ∧
    FE.handleAutoOptimize recipe
      = (FE.generateOptimizationSuggestions recipe).foldl
          (fun acc s => s.updates.foldl
            (fun a u => FE.setVal a u.1 u.2) acc) recipe := by
  refine ⟨?_, ?_, rfl⟩
  · simp only [FE.generateOptimizationSuggestions]
    split_ifs <;> simp
  · intro s hs
    simp only [FE.generateOptimizationSuggestions] at hs
    rcases List.mem_append.1 hs with h | h
    · rcases List.mem_append.1 h with h1 | h1
      · split at h1
        · exact absurd h1 (List.not_mem_nil s)
        · split at h1 <;>
            (simp only [List.mem_singleton] at h1; subst h1; simp)
      · split at h1
        · simp only [List.mem_singleton] at h1
          subst h1
          simp
        · exact absurd h1 (List.not_mem_nil s)
    · split at h
      · exact absurd h (List.not_mem_nil s)
      · split at h <;> (simp only [List.mem_singleton] at h; subst h; simp)

/-- The concrete recipe map refuting the non-negativity part of C2. -/
def recipeC2 : List (String × ℚ) :=
  [("Heavy Cream", 20), ("Whole Milk", 20), ("Sugar", 10)]

theorem fe_countedLines_recipeC2 : FE.countedLines recipeC2
    = [(FE.heavyCream, 20), (FE.wholeMilk, 20), (FE.sugar, 10)] := rfl

theorem fe_map_snd_recipeC2 :
    recipeC2.map Prod.snd = [(20 : ℚ), 20, 10] := rfl

theorem fe_getVal_recipeC2_sugar :
    FE.getVal recipeC2 "Sugar" = some 10 := rfl

theorem fe_getVal_recipeC2_heavyCream :
    FE.getVal recipeC2 "Heavy Cream" = some 20 := rfl

theorem fe_getVal_recipeC2_wholeMilk :
    FE.getVal recipeC2 "Whole Milk" = some 20 := rfl

theorem fe_suggestions_recipeC2 :
    FE.generateOptimizationSuggestions recipeC2
      = [ { stype := "info",
            message := "Add milk powder or increase milk content for more MSNF",
            updates := [("Whole Milk", 50)] },
          { stype := "success",
            message := "Reduce sugar by 10-15g to lower sweetness",
            updates := [("Sugar", -2)] } ] := by
  norm_num [FE.generateOptimizationSuggestions, FE.calculateRecipeMetrics,
    FE.checkTargets, FE.targets, FE.jsAdd, fe_countedLines_recipeC2,
    fe_getVal_recipeC2_sugar, fe_getVal_recipeC2_heavyCream,
    fe_getVal_recipeC2_wholeMilk, FE.heavyCream, FE.wholeMilk, FE.sugar,
    fe_map_snd_recipeC2]

theorem fe_autoOptimize_recipeC2 :
    FE.handleAutoOptimize recipeC2
      = [("Heavy Cream", 20), ("Whole Milk", 50), ("Sugar", -2)] := by
  rw [FE.handleAutoOptimize, fe_suggestions_recipeC2]
  rfl

/-- C2 counterexample: on the recipe map
`{Heavy Cream: 20, Whole Milk: 20, Sugar: 10}` (sweetness 20% is above the
band, so the optimizer subtracts 12 g of sugar) the optimizer returns a
recipe whose Sugar mass is −2 g, violating the claimed non-negativity. -/
theorem fe_autoOptimize_negative_mass_counterexample :
    (FE.getVal (FE.handleAutoOptimize recipeC2) "Sugar").getD 0 < 0 := by
  rw [fe_autoOptimize_recipeC2]
  have hfin : FE.getVal [("Heavy Cream", (20 : ℚ)), ("Whole Milk", 50),
      ("Sugar", -2)] "Sugar" = some (-2) := rfl
  rw [hfin]
  norm_num
